import Mathlib

/-!
# Hydrophone command line: `cmd/root.go`

A shallow embedding of `src/cmd/root.go`: the package-level flag variables,
`rootCmd.PreRun`, `rootCmd.Run`, `init` and `initConfig`.

Every call that leaves package `cmd` for one of the repository's own packages
(`pkg/client`, `pkg/common`, `pkg/service`) is a call of an abstract operation
supplied by an environment `Env W`, where `W` is everything outside `Run`'s
local variables (the cluster, the file system, the viper registry).  A Go call
either returns or ends the process (`os.Exit`, `log.Fatal`, an unrecovered
panic); `Outcome` records which.  Each call and each return is appended to a
trace.  The theorems speak about the whole result of a run: its trace, how the
process ended, and the world the operations left behind, as determined by what
the operations of the environment return.
-/

namespace Hydrophone

/-! ## Data model -/

/-- Handle of a `*kubernetes.Clientset` (pointer identity). -/
structure Clientset where
  ptr : Nat
deriving DecidableEq, Repr

/-- Handle of a `*rest.Config` (pointer identity). -/
structure RestConfig where
  ptr : Nat
deriving DecidableEq, Repr

/-- The two fields of `client.Client` that `root.go` touches. -/
structure Client where
  ClientSet : Clientset
  ExitCode : Int
deriving DecidableEq, Repr

/-- The package-level variables of package `cmd` (lines 16-32). -/
structure Vars where
  cfgFile : String
  kubeconfig : String
  parallel : Int
  verbosity : Int
  outputDir : String
  cleanup : Bool
  listImages : Bool
  conformance : Bool
  focus : String
  skip : String
  conformanceImage : String
  busyboxImage : String
  dryRun : Bool
  testRepoList : String
  testRepo : String
deriving DecidableEq, Repr

/-- What a Go call does to its caller: it returns a value, or the process ends
inside the callee with the given status. -/
inductive Outcome (α : Type) where
  | ret (a : α)
  | exit (status : Int)
deriving Repr

/-- Error value of `viper.ReadInConfig`, as far as `initConfig` tells them apart. -/
inductive ReadErr where
  | ConfigFileNotFoundError
  | other (msg : String)
deriving DecidableEq, Repr

/-- Names of the operations called from `root.go`. -/
inductive Op where
  | NewClient
  | Init
  | PrintInfo
  | Cleanup
  | PrintListImages
  | ValidateArgs
  | RunE2E
  | PrintE2ELogs
  | FetchFiles
  | FetchExitCode
  | GetKubeConfig
  | SetConfigFile
  | AddConfigPath
  | SetConfigType
  | SetConfigName
  | ReadInConfig
  | SafeWriteConfig
  | ViperSet
deriving DecidableEq, Repr

/-- A call together with the arguments `root.go` passes (for a method, the
receiver as it is when the call is made). -/
inductive Call where
  | NewClient
  | Init (kubeconfig : String)
  | PrintInfo (cs : Clientset) (config : RestConfig)
  | Cleanup (cs : Clientset)
  | PrintListImages (cs : Clientset)
  | ValidateArgs (cs : Clientset) (config : RestConfig)
  | RunE2E (cs : Clientset)
  | PrintE2ELogs (recv : Client)
  | FetchFiles (recv : Client) (config : RestConfig) (cs : Clientset) (outputDir : String)
  | FetchExitCode (recv : Client)
  | GetKubeConfig (kubeconfig : String)
  | SetConfigFile (file : String)
  | AddConfigPath (dir : String)
  | SetConfigType (ty : String)
  | SetConfigName (name : String)
  | ReadInConfig
  | SafeWriteConfig
  | ViperSet (key : String) (value : String)
deriving DecidableEq, Repr

/-- The operation a call is a call of. -/
def Call.op : Call → Op
  | .NewClient => .NewClient
  | .Init _ => .Init
  | .PrintInfo _ _ => .PrintInfo
  | .Cleanup _ => .Cleanup
  | .PrintListImages _ => .PrintListImages
  | .ValidateArgs _ _ => .ValidateArgs
  | .RunE2E _ => .RunE2E
  | .PrintE2ELogs _ => .PrintE2ELogs
  | .FetchFiles _ _ _ _ => .FetchFiles
  | .FetchExitCode _ => .FetchExitCode
  | .GetKubeConfig _ => .GetKubeConfig
  | .SetConfigFile _ => .SetConfigFile
  | .AddConfigPath _ => .AddConfigPath
  | .SetConfigType _ => .SetConfigType
  | .SetConfigName _ => .SetConfigName
  | .ReadInConfig => .ReadInConfig
  | .SafeWriteConfig => .SafeWriteConfig
  | .ViperSet _ _ => .ViperSet

/-- The collaborator operations of `Run`: the functions and methods of the
repository's own packages `pkg/client`, `pkg/common` and `pkg/service` that
`Run` calls.  (The viper calls and `service.GetKubeConfig` are made by
`initConfig`, never by `Run`.) -/
def Op.isCollaborator : Op → Bool
  | .NewClient | .Init | .PrintInfo | .Cleanup | .PrintListImages | .ValidateArgs
  | .RunE2E | .PrintE2ELogs | .FetchFiles | .FetchExitCode => true
  | _ => false

/-- What a call handed back when it returned. -/
inductive Ret where
  | unit
  | client (c : Client)
  | conn (config : RestConfig) (cs : Clientset)
  | str (s : String)
  | err (e : Option ReadErr)
  | werr (e : Option String)
deriving DecidableEq, Repr

/-- One observable step of the program: a call leaving package `cmd`, its
return, a line printed by `fmt.Println`, or the line
`log.Println("Exiting with code: ", client.ExitCode)`. -/
inductive Event where
  | call (c : Call)
  | ret (op : Op) (r : Ret)
  | println (msg : String)
  | exiting (code : Int)
deriving DecidableEq, Repr

/-- How the process ended: `os.Exit(client.ExitCode)` at the end of `Run`, the
`log.Fatal` of `PreRun`, or inside the named callee. -/
inductive Ending where
  | exited (status : Int)
  | fatal (msg : String)
  | aborted (op : Op) (status : Int)
deriving DecidableEq, Repr

/-- The argument of the `os.Exit` call that ended the process: `log.Fatal` is
`os.Exit(1)`. -/
def Ending.code : Ending → Int
  | .exited s => s
  | .fatal _ => 1
  | .aborted _ s => s

/-- The exit status the parent process reads on a Unix system: the low eight
bits of the argument of `os.Exit` (256 reads as 0, -1 as 255). -/
def Ending.status (e : Ending) : Int := e.code % 256

/-- The operations outside package `cmd`.  `NewClient` hands back the struct its
result points to; the methods of `*Client` receive that struct and hand it
back; the functions of `service` and `common` receive exactly the arguments
written in `root.go`, so they have no access to the struct.  The viper
operations act on the registry, which is part of the world. -/
structure Env (W : Type) where
  NewClient : W → Outcome (Client × W)
  PrintE2ELogs : Client → W → Outcome (Client × W)
  FetchFiles : Client → RestConfig → Clientset → String → W → Outcome (Client × W)
  FetchExitCode : Client → W → Outcome (Client × W)
  Init : String → W → Outcome ((RestConfig × Clientset) × W)
  Cleanup : Clientset → W → Outcome W
  PrintListImages : Clientset → W → Outcome W
  RunE2E : Clientset → W → Outcome W
  GetKubeConfig : String → W → Outcome (String × W)
  PrintInfo : Clientset → RestConfig → W → Outcome W
  ValidateArgs : Clientset → RestConfig → W → Outcome W
  GetString : String → W → String
  SetConfigFile : String → W → W
  AddConfigPath : String → W → W
  SetConfigType : String → W → W
  SetConfigName : String → W → W
  ReadInConfig : W → Option ReadErr × W
  SafeWriteConfig : W → Option String × W
  ViperSet : String → String → W → W
  ConfigHome : String

/-! ## Execution monad: package variables, outside world, trace, early exit -/

/-- Process state while code of package `cmd` runs. -/
structure State (W : Type) where
  vars : Vars
  world : W
  trace : List Event

/-- Result of running a piece of `cmd`: it returned, or the process ended. -/
inductive Res (W : Type) (α : Type) where
  | ok (a : α) (s : State W)
  | halt (e : Ending) (s : State W)

/-- Final state of a result. -/
def Res.state {W α : Type} : Res W α → State W
  | .ok _ s => s
  | .halt _ s => s

/-- Trace of a result. -/
def Res.trace {W α : Type} (r : Res W α) : List Event := r.state.trace

/-- How the process ended, if it did. -/
def Res.ending {W α : Type} : Res W α → Option Ending
  | .ok _ _ => none
  | .halt e _ => some e

/-- Computations of package `cmd`. -/
def M (W : Type) (α : Type) : Type := State W → Res W α

/-- Sequencing: a halted process runs nothing further. -/
def M.bind {W α β : Type} (m : M W α) (f : α → M W β) : M W β := fun s =>
  match m s with
  | .ok a s1 => f a s1
  | .halt e s1 => .halt e s1

instance (W : Type) : Monad (M W) where
  pure a := fun s => .ok a s
  bind := M.bind

/-- Append an event to the trace. -/
def emit {W : Type} (e : Event) : M W Unit := fun s =>
  .ok () { s with trace := s.trace ++ [e] }

/-- Call an operation that may end the process and that returns a value. -/
def invoke {W α : Type} (c : Call) (f : W → Outcome (α × W)) (r : α → Ret) : M W α := fun s =>
  match f s.world with
  | .ret (a, w) => .ok a { s with world := w, trace := s.trace ++ [.call c, .ret c.op (r a)] }
  | .exit st => .halt (.aborted c.op st) { s with trace := s.trace ++ [.call c] }

/-- Call an operation that may end the process and that returns nothing. -/
def invoke0 {W : Type} (c : Call) (f : W → Outcome W) : M W Unit := fun s =>
  match f s.world with
  | .ret w => .ok () { s with world := w, trace := s.trace ++ [.call c, .ret c.op .unit] }
  | .exit st => .halt (.aborted c.op st) { s with trace := s.trace ++ [.call c] }

/-- Call a viper operation that always returns. -/
def viperDo {W α : Type} (c : Call) (f : W → α × W) (r : α → Ret) : M W α := fun s =>
  match f s.world with
  | (a, w) => .ok a { s with world := w, trace := s.trace ++ [.call c, .ret c.op (r a)] }

/-- Read the package variables. -/
def getVars {W : Type} : M W Vars := fun s => .ok s.vars s

/-- Overwrite the package variables. -/
def setVars {W : Type} (v : Vars) : M W Unit := fun s => .ok () { s with vars := v }

/-- Pure read of the viper registry (`viper.GetString`). -/
def viperGetString {W : Type} (env : Env W) (key : String) : M W String := fun s =>
  .ok (env.GetString key s.world) s

/-- The process ends here. -/
def halt {W α : Type} (e : Ending) : M W α := fun s => .halt e s

/-! ## `rootCmd` (lines 34-67) -/

/-- `PreRun`, lines 38-45.  `log.Fatal` prints and calls `os.Exit(1)`, so the
`os.Exit(1)` of line 43 is never reached. -/
def PreRun {W : Type} : M W Unit := do
  let v ← getVars
  if v.conformance && v.focus != "" then
    setVars { v with conformance := false }
    let v1 ← getVars
    setVars { v1 with focus := "" }
    halt (.fatal "specify either --conformance or --focus arguments, not both")
  else
    pure ()

/-- `Run`, lines 46-66. -/
def Run {W : Type} (env : Env W) : M W Unit := do
  let client ← invoke .NewClient env.NewClient .client
  let kc ← viperGetString env "kubeconfig"
  let (config, clientSet) ← invoke (.Init kc) (env.Init kc) (fun p => .conn p.1 p.2)
  let client := { client with ClientSet := clientSet }
  invoke0 (.PrintInfo client.ClientSet config) (env.PrintInfo client.ClientSet config)
  let v ← getVars
  let client ←
    if v.cleanup then do
      invoke0 (.Cleanup client.ClientSet) (env.Cleanup client.ClientSet)
      pure client
    else if v.listImages then do
      invoke0 (.PrintListImages client.ClientSet) (env.PrintListImages client.ClientSet)
      pure client
    else do
      invoke0 (.ValidateArgs client.ClientSet config) (env.ValidateArgs client.ClientSet config)
      invoke0 (.RunE2E client.ClientSet) (env.RunE2E client.ClientSet)
      let client ← invoke (.PrintE2ELogs client) (env.PrintE2ELogs client) .client
      let out ← viperGetString env "output-dir"
      let client ← invoke (.FetchFiles client config clientSet out)
        (env.FetchFiles client config clientSet out) .client
      let client ← invoke (.FetchExitCode client) (env.FetchExitCode client) .client
      invoke0 (.Cleanup client.ClientSet) (env.Cleanup client.ClientSet)
      pure client
  emit (.exiting client.ExitCode)
  halt (.exited client.ExitCode)

/-! ## `initConfig` (lines 123-148) -/

/-- `initConfig`, lines 123-148. -/
def initConfig {W : Type} (env : Env W) : M W Unit := do
  let v ← getVars
  if v.cfgFile != "" then
    viperDo (.SetConfigFile v.cfgFile) (fun w => ((), env.SetConfigFile v.cfgFile w)) (fun _ => .unit)
  else
    let configDir := env.ConfigHome
    viperDo (.AddConfigPath configDir) (fun w => ((), env.AddConfigPath configDir w)) (fun _ => .unit)
    viperDo (.SetConfigType "yaml") (fun w => ((), env.SetConfigType "yaml" w)) (fun _ => .unit)
    viperDo (.SetConfigName "hydrophone") (fun w => ((), env.SetConfigName "hydrophone" w)) (fun _ => .unit)
    let err ← viperDo .ReadInConfig env.ReadInConfig .err
    match err with
    | none => pure ()
    | some .ConfigFileNotFoundError =>
      let werr ← viperDo .SafeWriteConfig env.SafeWriteConfig .werr
      match werr with
      | none => pure ()
      | some e => emit (.println ("Error: " ++ e))
    | some (.other msg) => emit (.println msg)
  let v ← getVars
  let kc ← invoke (.GetKubeConfig v.kubeconfig) (env.GetKubeConfig v.kubeconfig) .str
  setVars { v with kubeconfig := kc }
  viperDo (.ViperSet "kubeconfig" kc) (fun w => ((), env.ViperSet "kubeconfig" kc w)) (fun _ => .unit)

/-- What cobra does with `rootCmd` once the flags are parsed into the package
variables: the initializers registered with `cobra.OnInitialize`, then
`PreRun`, then `Run`. -/
def rootCmdExecute {W : Type} (env : Env W) : M W Unit := do
  initConfig env
  PreRun
  Run env

/-- Run a computation from package variables `v` and world `w`, empty trace. -/
def start {W α : Type} (m : M W α) (v : Vars) (w : W) : Res W α := m ⟨v, w, []⟩

/-! ## `init` (lines 76-121): flag registration and viper bindings -/

/-- The two flag sets of `rootCmd` that `init` writes to. -/
inductive FlagSetId where
  | PersistentFlags
  | Flags
deriving DecidableEq, Repr

/-- Names of the package variables. -/
inductive VarId where
  | cfgFile | kubeconfig | parallel | verbosity | outputDir | cleanup | listImages
  | conformance | focus | skip | conformanceImage | busyboxImage | dryRun | testRepoList
  | testRepo
deriving DecidableEq, Repr

/-- A registered flag: its flag set, the variable it stores into, its name, the
default value as pflag prints it, and the help text. -/
structure FlagDef where
  set : FlagSetId
  var : VarId
  name : String
  defValue : String
  usage : String
deriving DecidableEq, Repr

/-- The statements of `init` after `os.Getwd`. -/
inductive InitStmt where
  | OnInitialize
  | StringVar (set : FlagSetId) (var : VarId) (name : String) (value : String) (usage : String)
  | IntVar (set : FlagSetId) (var : VarId) (name : String) (value : Int) (usage : String)
  | BoolVar (set : FlagSetId) (var : VarId) (name : String) (value : Bool) (usage : String)
  | BindPFlag (key : String) (set : FlagSetId) (lookup : String)
deriving DecidableEq, Repr

/-- Lines 82-120 of `init`, in order; `workingDir` is the result of `os.Getwd`
and `configHome` is `xdg.ConfigHome`. -/
def initStmts (workingDir configHome : String) : List InitStmt :=
  [ .OnInitialize,
    .StringVar .PersistentFlags .cfgFile "config" ""
      ("Default config file (" ++ configHome ++ "/hydrophone/hydrophone.yaml)"),
    .StringVar .PersistentFlags .kubeconfig "kubeconfig" "" "path to the kubeconfig file.",
    .IntVar .PersistentFlags .parallel "parallel" 1 "number of parallel threads in test framework.",
    .BindPFlag "parallel" .PersistentFlags "parallel",
    .IntVar .PersistentFlags .verbosity "verbosity" 4 "verbosity of test framework.",
    .BindPFlag "verbosity" .PersistentFlags "verbosity",
    .StringVar .PersistentFlags .outputDir "output-dir" workingDir "directory for logs.",
    .BindPFlag "output-dir" .PersistentFlags "output-dir",
    .BoolVar .Flags .cleanup "cleanup" false "cleanup resources (pods, namespaces etc).",
    .BoolVar .Flags .listImages "list-images" false
      "list all images that will be used during conformance tests.",
    .BoolVar .Flags .conformance "conformance" false "run conformance tests.",
    .StringVar .Flags .focus "focus" ""
      "focus runs a specific e2e test. e.g. - sig-auth. allows regular expressions.",
    .StringVar .Flags .skip "skip" "" "skip specific tests. allows regular expressions.",
    .BindPFlag "skip" .Flags "skip",
    .StringVar .Flags .conformanceImage "conformance-image" ""
      "specify a conformance container image of your choice.",
    .BindPFlag "conformance-image" .Flags "conformance-image",
    .StringVar .Flags .busyboxImage "busybox-image" ""
      "specify an alternate busybox container image.",
    .BindPFlag "busybox-image" .Flags "busybox-image",
    .BoolVar .Flags .dryRun "dry-run" false "run in dry run mode.",
    .BindPFlag "dry-run" .Flags "dry-run",
    .StringVar .Flags .testRepoList "test-repo-list" ""
      "yaml file to override registries for test images.",
    .BindPFlag "test-repo-list" .Flags "test-repo-list",
    .StringVar .Flags .testRepo "test-repo" "" "skip specific tests. allows regular expressions.",
    .BindPFlag "test-repo" .Flags "test-repo" ]

/-- What `init` leaves behind: the registered flags and the viper keys bound to
flags (most recent binding first). -/
structure Registry where
  flags : List FlagDef
  bound : List (String × FlagDef)
deriving DecidableEq, Repr

/-- `set.Lookup(name)`: the flag of that name in that flag set, if registered. -/
def Registry.lookup (r : Registry) (set : FlagSetId) (name : String) : Option FlagDef :=
  r.flags.find? (fun f => f.set == set && f.name == name)

/-- Effect of one statement of `init`.  `viper.BindPFlag` with a nil flag
returns an error, which `init` ignores, and binds nothing. -/
def Registry.step (r : Registry) : InitStmt → Registry
  | .OnInitialize => r
  | .StringVar set var name value usage =>
    { r with flags := r.flags ++ [⟨set, var, name, value, usage⟩] }
  | .IntVar set var name value usage =>
    { r with flags := r.flags ++ [⟨set, var, name, toString value, usage⟩] }
  | .BoolVar set var name value usage =>
    { r with flags := r.flags ++ [⟨set, var, name, toString value, usage⟩] }
  | .BindPFlag key set name =>
    match r.lookup set name with
    | some f => { r with bound := (key, f) :: r.bound }
    | none => r

/-- `init`, lines 76-121: `log.Fatal` when `os.Getwd` fails, otherwise the flags
and bindings of lines 82-120. -/
def init (getwd : Except String String) (configHome : String) : Except String Registry :=
  match getwd with
  | .error e => .error e
  | .ok workingDir => .ok ((initStmts workingDir configHome).foldl Registry.step ⟨[], []⟩)

/-- The registry that `init` builds when `os.Getwd` succeeds. -/
def registry (workingDir configHome : String) : Registry :=
  match init (.ok workingDir) configHome with
  | .ok r => r
  | .error _ => ⟨[], []⟩

/-- The name of the flag bound to a viper key, if any. -/
def Registry.flagFor (r : Registry) (key : String) : Option String :=
  (r.bound.lookup key).map (fun f => f.name)

/-- A value held by viper: a string, a boolean or an integer (the scalar types
of a YAML file that the flags of `init` can also take). -/
inductive Value where
  | str (s : String)
  | bool (b : Bool)
  | int (n : Int)
deriving DecidableEq, Repr

/-- `cast.ToString`: how `viper.GetString` prints a value. -/
def Value.render : Value → String
  | .str s => s
  | .bool b => toString b
  | .int n => toString n

/-- `cast.ToBool`: how `viper.GetBool` reads a value: a boolean as it is, a
number as true when it is not zero, a string as `strconv.ParseBool` reads it
(false when it does not parse). -/
def Value.toBool : Value → Bool
  | .bool b => b
  | .int n => n != 0
  | .str s => s ∈ ["1", "t", "T", "TRUE", "true", "True"]

/-- The current value of a package variable, with the type of its flag: viper
reads a bound flag by the flag's type. -/
def Vars.value (v : Vars) : VarId → Value
  | .cfgFile => .str v.cfgFile
  | .kubeconfig => .str v.kubeconfig
  | .parallel => .int v.parallel
  | .verbosity => .int v.verbosity
  | .outputDir => .str v.outputDir
  | .cleanup => .bool v.cleanup
  | .listImages => .bool v.listImages
  | .conformance => .bool v.conformance
  | .focus => .str v.focus
  | .skip => .str v.skip
  | .conformanceImage => .str v.conformanceImage
  | .busyboxImage => .str v.busyboxImage
  | .dryRun => .bool v.dryRun
  | .testRepoList => .str v.testRepoList
  | .testRepo => .str v.testRepo

/-- The command line once cobra has parsed it: the package variables and the
names of the flags that were given. -/
structure Parsed where
  vars : Vars
  changed : List String
deriving DecidableEq, Repr

/-- The viper registry as far as `root.go` feeds it: the bindings made by
`init`, values written with `viper.Set`, and the values of the configuration
file that was read. -/
structure Viper where
  registry : Registry
  parsed : Parsed
  override : List (String × Value)
  config : List (String × Value)
deriving DecidableEq, Repr

/-- Lookup order of viper for a key: a value written with `Set`; the bound flag
when it was given on the command line; the configuration file; the bound
flag's current (default) value. -/
def Viper.findValue (vp : Viper) (key : String) : Option Value :=
  match vp.override.lookup key with
  | some x => some x
  | none =>
    match vp.registry.bound.lookup key with
    | some f =>
      if f.name ∈ vp.parsed.changed then some (vp.parsed.vars.value f.var)
      else
        match vp.config.lookup key with
        | some x => some x
        | none => some (vp.parsed.vars.value f.var)
    | none => vp.config.lookup key

/-- The value found for a key, printed. -/
def Viper.find (vp : Viper) (key : String) : Option String :=
  (vp.findValue key).map Value.render

/-- `viper.GetString`. -/
def Viper.GetString (vp : Viper) (key : String) : String :=
  (vp.find key).getD ""

/-- `viper.GetBool`: the value found, read by `cast.ToBool`; false when the key
has no value. -/
def Viper.GetBool (vp : Viper) (key : String) : Bool :=
  match vp.findValue key with
  | some x => x.toBool
  | none => false

/-! ## Bootstrapping, from the specification -/

/-- Modelled from the spec: the mutating cluster calls of bootstrapping
(section 4.1); `pkg/service` is not under `src/`. -/
inductive Mutation where
  | createNamespace
  | createRBAC
  | createConfigMap
  | createPod
deriving DecidableEq, Repr

/-- Modelled from the spec: the WorkloadHandle of section 3, with its
simulated flag; `pkg/service` is not under `src/`. -/
structure WorkloadHandle where
  simulated : Bool
deriving DecidableEq, Repr

/-- Modelled from the spec: a world for bootstrapping, which `pkg/service`
(not under `src/`) acts on: the viper registry, the mutating calls issued so
far, the workload handle, and what the cluster answers. -/
structure Cluster where
  viper : Viper
  mutations : List Mutation
  handle : Option WorkloadHandle
  reachable : Bool
  foreignNamespace : Bool
deriving DecidableEq, Repr

/-- Modelled from the spec: `service.RunE2E` (ResourceBootstrapper, section 4.1),
which is not under `src/`.  With dry-run set it issues no mutating call and
returns a handle flagged as simulated; otherwise it fails on an unreachable
cluster or a foreign same-named resource, and else creates, in order, the
namespace, the RBAC bindings, the optional config map of registry overrides,
and the pod. -/
def specRunE2E (_cs : Clientset) (w : Cluster) : Outcome Cluster :=
  if w.viper.GetBool "dry-run" then
    .ret { w with handle := some ⟨true⟩ }
  else if !w.reachable then .exit 1
  else if w.foreignNamespace then .exit 1
  else
    .ret { w with
      mutations := w.mutations ++ [.createNamespace, .createRBAC] ++
        (if w.viper.GetString "test-repo-list" != "" then [.createConfigMap] else []) ++
        [.createPod],
      handle := some ⟨false⟩ }

/-! ## Observing a run -/

/-- The calls in a trace, in order. -/
def calls : List Event → List Call
  | [] => []
  | .call c :: t => c :: calls t
  | _ :: t => calls t

/-- The names of the collaborator operations called, in order. -/
def collabOps (t : List Event) : List Op :=
  ((calls t).map Call.op).filter Op.isCollaborator

/-- Entering and leaving an operation, without arguments. -/
inductive Mark where
  | enter (op : Op)
  | leave (op : Op)
deriving DecidableEq, Repr

/-- The calls and returns of a trace, in order. -/
def marks : List Event → List Mark
  | [] => []
  | .call c :: t => .enter c.op :: marks t
  | .ret op _ :: t => .leave op :: marks t
  | _ :: t => marks t

/-- Trace of `Run` started from package variables `v` and world `w`. -/
def runTrace {W : Type} (env : Env W) (v : Vars) (w : W) : List Event :=
  (start (Run env) v w).trace

/-- How `Run` started from `v` and `w` ends. -/
def runEnding {W : Type} (env : Env W) (v : Vars) (w : W) : Option Ending :=
  (start (Run env) v w).ending

/-- Every collaborator operation that `Run` may call returns, whatever it is given. -/
def Env.Returns {W : Type} (env : Env W) : Prop :=
  (∀ w, ∃ r, env.NewClient w = .ret r) ∧
  (∀ k w, ∃ r, env.Init k w = .ret r) ∧
  (∀ cs cfg w, ∃ r, env.PrintInfo cs cfg w = .ret r) ∧
  (∀ cs cfg w, ∃ r, env.ValidateArgs cs cfg w = .ret r) ∧
  (∀ cs w, ∃ r, env.RunE2E cs w = .ret r) ∧
  (∀ c w, ∃ r, env.PrintE2ELogs c w = .ret r) ∧
  (∀ c cfg cs o w, ∃ r, env.FetchFiles c cfg cs o w = .ret r) ∧
  (∀ c w, ∃ r, env.FetchExitCode c w = .ret r) ∧
  (∀ cs w, ∃ r, env.Cleanup cs w = .ret r) ∧
  (∀ cs w, ∃ r, env.PrintListImages cs w = .ret r)

/-- The `ExitCode` field of the client struct as the trace last shows it: only
`NewClient` and the methods of `*Client` hand the struct back. -/
def lastExitCode : List Event → Option Int
  | [] => none
  | .ret _ (.client c) :: t =>
    match lastExitCode t with
    | some x => some x
    | none => some c.ExitCode
  | _ :: t => lastExitCode t

/-- The values that lines 47-50 of `Run` produce when `NewClient`, `Init` and
`PrintInfo` return: the client struct, the connection, and the worlds in
between. -/
structure Preamble (W : Type) where
  c0 : Client
  w1 : W
  config : RestConfig
  cs : Clientset
  w2 : W
  w3 : W

/-- The operations of lines 47-50 applied in order, each to the world the one
before left, return these values. -/
def Preamble.ok {W : Type} (p : Preamble W) (env : Env W) (w : W) : Prop :=
  env.NewClient w = .ret (p.c0, p.w1) ∧
  env.Init (env.GetString "kubeconfig" p.w1) p.w1 = .ret ((p.config, p.cs), p.w2) ∧
  env.PrintInfo p.cs p.config p.w2 = .ret p.w3

/-- The events of lines 47-50. -/
def Preamble.trace {W : Type} (p : Preamble W) (env : Env W) : List Event :=
  [.call .NewClient, .ret .NewClient (.client p.c0),
   .call (.Init (env.GetString "kubeconfig" p.w1)), .ret .Init (.conn p.config p.cs),
   .call (.PrintInfo p.cs p.config), .ret .PrintInfo .unit]

/-- The values that lines 56-61 of `Run` produce when `ValidateArgs`, `RunE2E`,
`PrintE2ELogs`, `FetchFiles` and `FetchExitCode` return. -/
structure Stages (W : Type) where
  w4 : W
  w5 : W
  c1 : Client
  w6 : W
  c2 : Client
  w7 : W
  c3 : Client
  w8 : W

/-- The operations of lines 56-61 applied in order after the preamble, each to
the world and the client struct the one before left, return these values. -/
def Stages.ok {W : Type} (s : Stages W) (p : Preamble W) (env : Env W) : Prop :=
  env.ValidateArgs p.cs p.config p.w3 = .ret s.w4 ∧
  env.RunE2E p.cs s.w4 = .ret s.w5 ∧
  env.PrintE2ELogs ⟨p.cs, p.c0.ExitCode⟩ s.w5 = .ret (s.c1, s.w6) ∧
  env.FetchFiles s.c1 p.config p.cs (env.GetString "output-dir" s.w6) s.w6 = .ret (s.c2, s.w7) ∧
  env.FetchExitCode s.c2 s.w7 = .ret (s.c3, s.w8)

/-- The events of lines 56-61. -/
def Stages.trace {W : Type} (s : Stages W) (p : Preamble W) (env : Env W) : List Event :=
  [.call (.ValidateArgs p.cs p.config), .ret .ValidateArgs .unit,
   .call (.RunE2E p.cs), .ret .RunE2E .unit,
   .call (.PrintE2ELogs ⟨p.cs, p.c0.ExitCode⟩), .ret .PrintE2ELogs (.client s.c1),
   .call (.FetchFiles s.c1 p.config p.cs (env.GetString "output-dir" s.w6)),
   .ret .FetchFiles (.client s.c2),
   .call (.FetchExitCode s.c2), .ret .FetchExitCode (.client s.c3)]

/-- The second world has the viper registry, the mutation log and the workload
handle of the first. -/
def Cluster.sameAs (w2 w : Cluster) : Prop :=
  w2.viper = w.viper ∧ w2.mutations = w.mutations ∧ w2.handle = w.handle

/-- Every operation of a normal run other than `RunE2E` leaves the viper
registry, the mutation log and the workload handle as they are. -/
def Env.Quiet (env : Env Cluster) : Prop :=
  (∀ w r w2, env.NewClient w = .ret (r, w2) → w2.sameAs w) ∧
  (∀ k w r w2, env.Init k w = .ret (r, w2) → w2.sameAs w) ∧
  (∀ cs cfg w w2, env.PrintInfo cs cfg w = .ret w2 → w2.sameAs w) ∧
  (∀ cs cfg w w2, env.ValidateArgs cs cfg w = .ret w2 → w2.sameAs w) ∧
  (∀ c w r w2, env.PrintE2ELogs c w = .ret (r, w2) → w2.sameAs w) ∧
  (∀ c cfg cs o w r w2, env.FetchFiles c cfg cs o w = .ret (r, w2) → w2.sameAs w) ∧
  (∀ c w r w2, env.FetchExitCode c w = .ret (r, w2) → w2.sameAs w) ∧
  (∀ cs w w2, env.Cleanup cs w = .ret w2 → w2.sameAs w)

/-! ## Concrete environments and command lines -/

/-- An environment in which every operation returns; the world counts the calls. -/
def okEnv : Env Nat where
  NewClient := fun w => .ret (⟨⟨0⟩, 0⟩, w + 1)
  PrintE2ELogs := fun c w => .ret (c, w + 1)
  FetchFiles := fun c _ _ _ w => .ret (c, w + 1)
  FetchExitCode := fun c w => .ret ({ c with ExitCode := 3 }, w + 1)
  Init := fun _ w => .ret ((⟨7⟩, ⟨9⟩), w + 1)
  Cleanup := fun _ w => .ret (w + 1)
  PrintListImages := fun _ w => .ret (w + 1)
  RunE2E := fun _ w => .ret (w + 1)
  GetKubeConfig := fun s w => .ret (s, w)
  PrintInfo := fun _ _ w => .ret (w + 1)
  ValidateArgs := fun _ _ w => .ret (w + 1)
  GetString := fun k _ => k
  SetConfigFile := fun _ w => w
  AddConfigPath := fun _ w => w
  SetConfigType := fun _ w => w
  SetConfigName := fun _ w => w
  ReadInConfig := fun w => (none, w)
  SafeWriteConfig := fun w => (none, w)
  ViperSet := fun _ _ w => w
  ConfigHome := "/home/u/.config"

/-- As `okEnv`, but `service.Init` ends the process with status 1 (a kubeconfig
that cannot be loaded). -/
def fatalInitEnv : Env Nat := { okEnv with Init := fun _ _ => .exit 1 }

/-- As `okEnv`, but `service.Cleanup` ends the process with status 7. -/
def fatalCleanupEnv : Env Nat := { okEnv with Cleanup := fun _ _ => .exit 7 }

/-- As `okEnv`, but `FetchFiles` writes 9 into `ExitCode` and `FetchExitCode`
leaves the field as it finds it. -/
def fetchWritesEnv : Env Nat :=
  { okEnv with
    FetchFiles := fun c _ _ _ w => .ret ({ c with ExitCode := 9 }, w + 1),
    FetchExitCode := fun c w => .ret (c, w + 1) }

/-- The values of the preamble in `okEnv` started in world 0. -/
def okPreamble : Preamble Nat := ⟨⟨⟨0⟩, 0⟩, 1, ⟨7⟩, ⟨9⟩, 2, 3⟩

/-- The values of the stages in `okEnv` after `okPreamble`. -/
def okStages : Stages Nat := ⟨4, 5, ⟨⟨9⟩, 0⟩, 6, ⟨⟨9⟩, 0⟩, 7, ⟨⟨9⟩, 3⟩, 8⟩

/-- Flag variables with the defaults of `init`. -/
def vars0 : Vars :=
  ⟨"", "", 1, 4, "/tmp", false, false, false, "", "", "", "", false, "", ""⟩

/-- The defaults with `--cleanup` and `--list-images` both given. -/
def cleanupVars : Vars := { vars0 with cleanup := true, listImages := true }

/-- The defaults with `--conformance` and `--focus sig-auth` both given. -/
def clashVars : Vars := { vars0 with conformance := true, focus := "sig-auth" }

/-- The message of the `log.Fatal` in `PreRun`. -/
def clashMsg : String := "specify either --conformance or --focus arguments, not both"

/-- The defaults with `--dry-run` given. -/
def dryVars : Vars := { vars0 with dryRun := true }

/-- The viper registry after `init` and after parsing a command line, with
nothing written by `Set` and the given configuration file values. -/
def viperAfterParse (p : Parsed) (config : List (String × Value)) : Viper :=
  ⟨registry "/work" "/home/u/.config", p, [], config⟩

/-- The command line `--focus sig-auth --skip Slow`. -/
def focusSkipLine : Parsed :=
  ⟨{ vars0 with focus := "sig-auth", skip := "Slow" }, ["focus", "skip"]⟩

/-- The command line `--dry-run`. -/
def dryRunLine : Parsed := ⟨dryVars, ["dry-run"]⟩

/-- A reachable cluster to which nothing has been done yet. -/
def freshCluster (vp : Viper) : Cluster := ⟨vp, [], none, true, false⟩

/-- An environment over `Cluster` whose `RunE2E` is bootstrapping as the
specification describes it and whose other operations return at once. -/
def clusterEnv : Env Cluster where
  NewClient := fun w => .ret (⟨⟨0⟩, 0⟩, w)
  PrintE2ELogs := fun c w => .ret (c, w)
  FetchFiles := fun c _ _ _ w => .ret (c, w)
  FetchExitCode := fun c w => .ret (c, w)
  Init := fun _ w => .ret ((⟨7⟩, ⟨9⟩), w)
  Cleanup := fun _ w => .ret w
  PrintListImages := fun _ w => .ret w
  RunE2E := specRunE2E
  GetKubeConfig := fun s w => .ret (s, w)
  PrintInfo := fun _ _ w => .ret w
  ValidateArgs := fun _ _ w => .ret w
  GetString := fun k w => w.viper.GetString k
  SetConfigFile := fun _ w => w
  AddConfigPath := fun _ w => w
  SetConfigType := fun _ w => w
  SetConfigName := fun _ w => w
  ReadInConfig := fun w => (none, w)
  SafeWriteConfig := fun w => (none, w)
  ViperSet := fun k x w =>
    { w with viper := { w.viper with override := (k, .str x) :: w.viper.override } }
  ConfigHome := "/home/u/.config"

/-! ## Theorems -/

/-! ### How the statements of a `do` block unfold -/

theorem bind_eq {W α β : Type} (m : M W α) (k : α → M W β) : (m >>= k) = M.bind m k := rfl

theorem pure_eq {W α : Type} (a : α) : (pure a : M W α) = fun s => Res.ok a s := rfl

theorem invoke_bind {W α β : Type} (c : Call) (f : W → Outcome (α × W)) (r : α → Ret)
    (k : α → M W β) (s : State W) :
    M.bind (invoke c f r) k s =
      match f s.world with
      | .ret (a, w) => k a { s with world := w, trace := s.trace ++ [.call c, .ret c.op (r a)] }
      | .exit st => .halt (.aborted c.op st) { s with trace := s.trace ++ [.call c] } := by
  unfold M.bind invoke
  cases f s.world with
  | ret p => rfl
  | exit st => rfl

theorem invoke0_bind {W β : Type} (c : Call) (f : W → Outcome W)
    (k : Unit → M W β) (s : State W) :
    M.bind (invoke0 c f) k s =
      match f s.world with
      | .ret w => k () { s with world := w, trace := s.trace ++ [.call c, .ret c.op .unit] }
      | .exit st => .halt (.aborted c.op st) { s with trace := s.trace ++ [.call c] } := by
  unfold M.bind invoke0
  cases f s.world with
  | ret p => rfl
  | exit st => rfl

theorem viperDo_bind {W α β : Type} (c : Call) (f : W → α × W) (r : α → Ret)
    (k : α → M W β) (s : State W) :
    M.bind (viperDo c f r) k s =
      k (f s.world).1
        { s with world := (f s.world).2, trace := s.trace ++ [.call c, .ret c.op (r (f s.world).1)] } := rfl

theorem getVars_bind {W β : Type} (k : Vars → M W β) (s : State W) :
    M.bind getVars k s = k s.vars s := rfl

theorem setVars_bind {W β : Type} (v : Vars) (k : Unit → M W β) (s : State W) :
    M.bind (setVars v) k s = k () { s with vars := v } := rfl

theorem viperGetString_bind {W β : Type} (env : Env W) (key : String) (k : String → M W β)
    (s : State W) : M.bind (viperGetString env key) k s = k (env.GetString key s.world) s := rfl

theorem emit_bind {W β : Type} (e : Event) (k : Unit → M W β) (s : State W) :
    M.bind (emit e) k s = k () { s with trace := s.trace ++ [e] } := rfl

theorem ok_bind {W α β : Type} (a : α) (k : α → M W β) (s : State W) :
    M.bind (fun s => Res.ok a s) k s = k a s := rfl

theorem ite_bind {W α β : Type} (c : Prop) [Decidable c] (m1 m2 : M W α) (k : α → M W β)
    (s : State W) :
    M.bind (if c then m1 else m2) k s = if c then M.bind m1 k s else M.bind m2 k s := by
  split <;> rfl

theorem halt_bind {W α β : Type} (e : Ending) (k : α → M W β) (s : State W) :
    M.bind (halt e) k s = Res.halt e s := rfl

theorem ite_app {W α : Type} (c : Prop) [Decidable c] (m1 m2 : M W α) (s : State W) :
    (if c then m1 else m2) s = if c then m1 s else m2 s := by
  split <;> rfl

theorem bind_bind {W α β γ : Type} (m : M W α) (f : α → M W β) (g : β → M W γ) (s : State W) :
    M.bind (M.bind m f) g s = M.bind m (fun a => M.bind (f a) g) s := by
  unfold M.bind
  cases m s <;> rfl

/-! ### What `Run` evaluates to -/

/-- A normal run whose operations all return: what `Run` evaluates to. -/
theorem Run_normal_eq {W : Type} (env : Env W) (v : Vars) (w : W)
    (hc : v.cleanup = false) (hl : v.listImages = false)
    (p : Preamble W) (st : Stages W) (w9 : W)
    (hp : p.ok env w) (hs : st.ok p env)
    (h9 : env.Cleanup st.c3.ClientSet st.w8 = .ret w9) :
    start (Run env) v w =
      .halt (.exited st.c3.ExitCode)
        ⟨v, w9, p.trace env ++ st.trace p env ++
          [.call (.Cleanup st.c3.ClientSet), .ret .Cleanup .unit, .exiting st.c3.ExitCode]⟩ := by
  obtain ⟨e1, e2, e3⟩ := hp
  obtain ⟨e4, e5, e6, e7, e8⟩ := hs
  simp only [start, Run, bind_eq, pure_eq, invoke_bind, invoke0_bind, getVars_bind,
    viperGetString_bind, emit_bind, ok_bind, ite_bind, bind_bind, halt, hc, hl,
    Bool.false_eq_true, if_false, e1, e2, e3, e4, e5, e6, e7, e8, h9, Preamble.trace,
    Stages.trace, Call.op, List.nil_append, List.cons_append, List.append_assoc]

/-- A normal run in which `Cleanup` ends the process: what `Run` evaluates to. -/
theorem Run_normal_Cleanup_exit {W : Type} (env : Env W) (v : Vars) (w : W)
    (hc : v.cleanup = false) (hl : v.listImages = false)
    (p : Preamble W) (st : Stages W) (c : Int)
    (hp : p.ok env w) (hs : st.ok p env)
    (h9 : env.Cleanup st.c3.ClientSet st.w8 = .exit c) :
    start (Run env) v w =
      .halt (.aborted .Cleanup c)
        ⟨v, st.w8, p.trace env ++ st.trace p env ++ [.call (.Cleanup st.c3.ClientSet)]⟩ := by
  obtain ⟨e1, e2, e3⟩ := hp
  obtain ⟨e4, e5, e6, e7, e8⟩ := hs
  simp only [start, Run, bind_eq, pure_eq, invoke_bind, invoke0_bind, getVars_bind,
    viperGetString_bind, emit_bind, ok_bind, ite_bind, bind_bind, halt, hc, hl,
    Bool.false_eq_true, if_false, e1, e2, e3, e4, e5, e6, e7, e8, h9, Preamble.trace,
    Stages.trace, Call.op, List.nil_append, List.cons_append, List.append_assoc]

/-- A cleanup run whose operations all return: what `Run` evaluates to. -/
theorem Run_cleanup_eq {W : Type} (env : Env W) (v : Vars) (w : W)
    (hc : v.cleanup = true) (p : Preamble W) (w4 : W)
    (hp : p.ok env w) (h4 : env.Cleanup p.cs p.w3 = .ret w4) :
    start (Run env) v w =
      .halt (.exited p.c0.ExitCode)
        ⟨v, w4, p.trace env ++
          [.call (.Cleanup p.cs), .ret .Cleanup .unit, .exiting p.c0.ExitCode]⟩ := by
  obtain ⟨e1, e2, e3⟩ := hp
  simp only [start, Run, bind_eq, pure_eq, invoke_bind, invoke0_bind, getVars_bind,
    viperGetString_bind, emit_bind, ok_bind, ite_bind, bind_bind, halt, hc,
    if_true, e1, e2, e3, h4, Preamble.trace, Call.op, List.nil_append, List.cons_append,
    List.append_assoc]

/-- A cleanup run in which `Cleanup` ends the process: what `Run` evaluates to. -/
theorem Run_cleanup_exit {W : Type} (env : Env W) (v : Vars) (w : W)
    (hc : v.cleanup = true) (p : Preamble W) (c : Int)
    (hp : p.ok env w) (h4 : env.Cleanup p.cs p.w3 = .exit c) :
    start (Run env) v w =
      .halt (.aborted .Cleanup c) ⟨v, p.w3, p.trace env ++ [.call (.Cleanup p.cs)]⟩ := by
  obtain ⟨e1, e2, e3⟩ := hp
  simp only [start, Run, bind_eq, pure_eq, invoke_bind, invoke0_bind, getVars_bind,
    viperGetString_bind, emit_bind, ok_bind, ite_bind, bind_bind, halt, hc,
    if_true, e1, e2, e3, h4, Preamble.trace, Call.op, List.nil_append, List.cons_append,
    List.append_assoc]

/-- A list-images run whose operations all return: what `Run` evaluates to. -/
theorem Run_listImages_eq {W : Type} (env : Env W) (v : Vars) (w : W)
    (hc : v.cleanup = false) (hl : v.listImages = true) (p : Preamble W) (w4 : W)
    (hp : p.ok env w) (h4 : env.PrintListImages p.cs p.w3 = .ret w4) :
    start (Run env) v w =
      .halt (.exited p.c0.ExitCode)
        ⟨v, w4, p.trace env ++
          [.call (.PrintListImages p.cs), .ret .PrintListImages .unit,
           .exiting p.c0.ExitCode]⟩ := by
  obtain ⟨e1, e2, e3⟩ := hp
  simp only [start, Run, bind_eq, pure_eq, invoke_bind, invoke0_bind, getVars_bind,
    viperGetString_bind, emit_bind, ok_bind, ite_bind, bind_bind, halt, hc, hl,
    if_true, if_false, Bool.false_eq_true, e1, e2, e3, h4, Preamble.trace, Call.op,
    List.nil_append, List.cons_append, List.append_assoc]

/-- A normal run that reaches `os.Exit` got there through returning calls of
all nine operations, each applied to what the one before left. -/
theorem Run_normal_exited {W : Type} (env : Env W) (v : Vars) (w : W)
    (hc : v.cleanup = false) (hl : v.listImages = false) (s : Int)
    (h : runEnding env v w = some (.exited s)) :
    ∃ (p : Preamble W) (st : Stages W) (w9 : W),
      p.ok env w ∧ st.ok p env ∧ env.Cleanup st.c3.ClientSet st.w8 = .ret w9 := by
  revert h
  simp only [runEnding, start, Run, bind_eq, pure_eq, invoke_bind, invoke0_bind, getVars_bind,
    viperGetString_bind, emit_bind, ok_bind, ite_bind, bind_bind, halt, hc, hl,
    Bool.false_eq_true, if_false]
  cases e1 : env.NewClient w with
  | exit x => simp [Res.ending]
  | ret p1 =>
    obtain ⟨c0, w1⟩ := p1
    simp only []
    cases e2 : env.Init (env.GetString "kubeconfig" w1) w1 with
    | exit x => simp [Res.ending]
    | ret p2 =>
      obtain ⟨⟨cfg, cs⟩, w2⟩ := p2
      simp only []
      cases e3 : env.PrintInfo cs cfg w2 with
      | exit x => simp [Res.ending]
      | ret w3 =>
        simp only []
        cases e4 : env.ValidateArgs cs cfg w3 with
        | exit x => simp [Res.ending]
        | ret w4 =>
          simp only []
          cases e5 : env.RunE2E cs w4 with
          | exit x => simp [Res.ending]
          | ret w5 =>
            simp only []
            cases e6 : env.PrintE2ELogs ⟨cs, c0.ExitCode⟩ w5 with
            | exit x => simp [Res.ending]
            | ret p6 =>
              obtain ⟨c1, w6⟩ := p6
              simp only []
              cases e7 : env.FetchFiles c1 cfg cs (env.GetString "output-dir" w6) w6 with
              | exit x => simp [Res.ending]
              | ret p7 =>
                obtain ⟨c2, w7⟩ := p7
                simp only []
                cases e8 : env.FetchExitCode c2 w7 with
                | exit x => simp [Res.ending]
                | ret p8 =>
                  obtain ⟨c3, w8⟩ := p8
                  simp only []
                  cases e9 : env.Cleanup c3.ClientSet w8 with
                  | exit x => simp [Res.ending]
                  | ret w9 =>
                    intro _
                    exact ⟨⟨c0, w1, cfg, cs, w2, w3⟩, ⟨w4, w5, c1, w6, c2, w7, c3, w8⟩, w9,
                      ⟨e1, e2, e3⟩, ⟨e4, e5, e6, e7, e8⟩, e9⟩

/-- In cleanup mode the result of `Run` does not depend on the workload
operations nor on `PrintListImages`: none of them is applied. -/
theorem Run_cleanup_frame {W : Type} (env : Env W) (v : Vars) (w : W) (hc : v.cleanup = true)
    (va : Clientset → RestConfig → W → Outcome W) (re : Clientset → W → Outcome W)
    (pl : Client → W → Outcome (Client × W))
    (ff : Client → RestConfig → Clientset → String → W → Outcome (Client × W))
    (fe : Client → W → Outcome (Client × W)) (pli : Clientset → W → Outcome W) :
    start (Run
        { env with
          ValidateArgs := va, RunE2E := re, PrintE2ELogs := pl, FetchFiles := ff,
          FetchExitCode := fe, PrintListImages := pli }) v w =
      start (Run env) v w := by
  simp only [start, Run, bind_eq, pure_eq, invoke_bind, invoke0_bind,
    getVars_bind, viperGetString_bind, emit_bind, ok_bind, ite_bind, bind_bind, halt, hc,
    if_true]

/-! ### The claims -/

/-- C2.  In a normal run in which every collaborator operation returns, `Run`
reaches its `os.Exit`.  A normal run reaches `os.Exit` only through returning
calls of `NewClient`, `Init`, `PrintInfo`, `ValidateArgs`, `RunE2E`,
`PrintE2ELogs`, `FetchFiles`, `FetchExitCode` and `Cleanup`, each applied once,
in this order, to the world (and client struct) the one before left; and
whenever they so return, `Run` ends in the world `Cleanup` left, with exactly
these calls and returns in its trace, each operation entered only after the
one before it has returned. -/
theorem Run_normal_order {W : Type} (env : Env W) (v : Vars) (w : W)
    (hc : v.cleanup = false) (hl : v.listImages = false) :
    (env.Returns → ∃ s, runEnding env v w = some (.exited s)) ∧
    (∀ s, runEnding env v w = some (.exited s) →
      ∃ (p : Preamble W) (st : Stages W) (w9 : W),
        p.ok env w ∧ st.ok p env ∧ env.Cleanup st.c3.ClientSet st.w8 = .ret w9) ∧
    (∀ (p : Preamble W) (st : Stages W) (w9 : W),
      p.ok env w → st.ok p env → env.Cleanup st.c3.ClientSet st.w8 = .ret w9 →
      start (Run env) v w =
        .halt (.exited st.c3.ExitCode)
          ⟨v, w9, p.trace env ++ st.trace p env ++
            [.call (.Cleanup st.c3.ClientSet), .ret .Cleanup .unit,
             .exiting st.c3.ExitCode]⟩) ∧
    (∀ s, runEnding env v w = some (.exited s) →
      marks (runTrace env v w) =
        [.enter .NewClient, .leave .NewClient, .enter .Init, .leave .Init,
         .enter .PrintInfo, .leave .PrintInfo, .enter .ValidateArgs, .leave .ValidateArgs,
         .enter .RunE2E, .leave .RunE2E, .enter .PrintE2ELogs, .leave .PrintE2ELogs,
         .enter .FetchFiles, .leave .FetchFiles, .enter .FetchExitCode, .leave .FetchExitCode,
         .enter .Cleanup, .leave .Cleanup]) := by
  refine ⟨?_, ?_, ?_, ?_⟩
  · rintro ⟨h1, h2, h3, h4, h5, h6, h7, h8, h9, -⟩
    obtain ⟨⟨c0, w1⟩, e1⟩ := h1 w
    obtain ⟨⟨⟨cfg, cs⟩, w2⟩, e2⟩ := h2 (env.GetString "kubeconfig" w1) w1
    obtain ⟨w3, e3⟩ := h3 cs cfg w2
    obtain ⟨w4, e4⟩ := h4 cs cfg w3
    obtain ⟨w5, e5⟩ := h5 cs w4
    obtain ⟨⟨c1, w6⟩, e6⟩ := h6 ⟨cs, c0.ExitCode⟩ w5
    obtain ⟨⟨c2, w7⟩, e7⟩ := h7 c1 cfg cs (env.GetString "output-dir" w6) w6
    obtain ⟨⟨c3, w8⟩, e8⟩ := h8 c2 w7
    obtain ⟨w9, e9⟩ := h9 c3.ClientSet w8
    refine ⟨c3.ExitCode, ?_⟩
    unfold runEnding
    rw [Run_normal_eq env v w hc hl ⟨c0, w1, cfg, cs, w2, w3⟩ ⟨w4, w5, c1, w6, c2, w7, c3, w8⟩
      w9 ⟨e1, e2, e3⟩ ⟨e4, e5, e6, e7, e8⟩ e9]
    rfl
  · intro s h
    exact Run_normal_exited env v w hc hl s h
  · intro p st w9 hp hs h9
    exact Run_normal_eq env v w hc hl p st w9 hp hs h9
  · intro s h
    obtain ⟨p, st, w9, hp, hs, h9⟩ := Run_normal_exited env v w hc hl s h
    unfold runTrace
    rw [Run_normal_eq env v w hc hl p st w9 hp hs h9]
    simp [Res.trace, Res.state, Preamble.trace, Stages.trace, marks, Call.op]

theorem Run_normal_order_witness :
    okEnv.Returns ∧
    (∃ s, runEnding okEnv vars0 0 = some (.exited s)) ∧
    start (Run okEnv) vars0 0 =
      .halt (.exited 3)
        ⟨vars0, 9, okPreamble.trace okEnv ++ okStages.trace okPreamble okEnv ++
          [.call (.Cleanup ⟨9⟩), .ret .Cleanup .unit, .exiting 3]⟩ ∧
    marks (runTrace okEnv vars0 0) =
        [.enter .NewClient, .leave .NewClient, .enter .Init, .leave .Init,
         .enter .PrintInfo, .leave .PrintInfo, .enter .ValidateArgs, .leave .ValidateArgs,
         .enter .RunE2E, .leave .RunE2E, .enter .PrintE2ELogs, .leave .PrintE2ELogs,
         .enter .FetchFiles, .leave .FetchFiles, .enter .FetchExitCode, .leave .FetchExitCode,
         .enter .Cleanup, .leave .Cleanup] :=
  have hr : okEnv.Returns :=
    ⟨fun _ => ⟨_, rfl⟩, fun _ _ => ⟨_, rfl⟩, fun _ _ _ => ⟨_, rfl⟩, fun _ _ _ => ⟨_, rfl⟩,
     fun _ _ => ⟨_, rfl⟩, fun _ _ => ⟨_, rfl⟩, fun _ _ _ _ _ => ⟨_, rfl⟩, fun _ _ => ⟨_, rfl⟩,
     fun _ _ => ⟨_, rfl⟩, fun _ _ => ⟨_, rfl⟩⟩
  ⟨hr, (Run_normal_order okEnv vars0 0 rfl rfl).1 hr,
    (Run_normal_order okEnv vars0 0 rfl rfl).2.2.1 okPreamble okStages 9
      ⟨rfl, rfl, rfl⟩ ⟨rfl, rfl, rfl, rfl, rfl⟩ rfl,
    (Run_normal_order okEnv vars0 0 rfl rfl).2.2.2 3 (by decide)⟩

/-- C3 (as stated) fails: when `service.Cleanup` ends the process with status
7, the process exits with 7 although `FetchExitCode` left 3; and when
`FetchFiles` writes 9 into the field and `FetchExitCode` leaves it, the
process exits with 9. -/
theorem exit_status_follows_Cleanup_exit :
    vars0.cleanup = false ∧ vars0.listImages = false ∧
    Event.ret .FetchExitCode (.client ⟨⟨9⟩, 3⟩) ∈ runTrace fatalCleanupEnv vars0 0 ∧
    runEnding fatalCleanupEnv vars0 0 = some (.aborted .Cleanup 7) ∧
    (runEnding fatalCleanupEnv vars0 0).map Ending.status = some 7 ∧
    Event.ret .FetchFiles (.client ⟨⟨9⟩, 9⟩) ∈ runTrace fetchWritesEnv vars0 0 ∧
    runEnding fetchWritesEnv vars0 0 = some (.exited 9) := by
  decide

/-- C3 (amended).  Whenever `Run` reaches its `os.Exit`, the status it passes
is the `ExitCode` field of the client struct as last handed back.  In a normal
run whose earlier operations return, the process ends with the `ExitCode` of
the struct `FetchExitCode` handed back when `service.Cleanup` returns, and
with the status `Cleanup` chose when `Cleanup` ends the process; in cleanup
and list-images mode it ends with the `ExitCode` of the struct `NewClient`
handed back.  Replacing `service.Cleanup` by any other function of the
`ClientSet` and the world never changes the status passed to `os.Exit`. -/
theorem exit_status_is_ExitCode {W : Type} (env : Env W) (v : Vars) (w : W) :
    (∀ s, runEnding env v w = some (.exited s) →
      lastExitCode (runTrace env v w) = some s ∧ Event.exiting s ∈ runTrace env v w) ∧
    (v.cleanup = false → v.listImages = false →
      ∀ (p : Preamble W) (st : Stages W), p.ok env w → st.ok p env →
        (∀ w9, env.Cleanup st.c3.ClientSet st.w8 = .ret w9 →
          runEnding env v w = some (.exited st.c3.ExitCode)) ∧
        (∀ c, env.Cleanup st.c3.ClientSet st.w8 = .exit c →
          runEnding env v w = some (.aborted .Cleanup c))) ∧
    (v.cleanup = true → ∀ (p : Preamble W) (w4 : W), p.ok env w →
      env.Cleanup p.cs p.w3 = .ret w4 → runEnding env v w = some (.exited p.c0.ExitCode)) ∧
    (v.cleanup = false → v.listImages = true → ∀ (p : Preamble W) (w4 : W), p.ok env w →
      env.PrintListImages p.cs p.w3 = .ret w4 →
      runEnding env v w = some (.exited p.c0.ExitCode)) ∧
    (∀ (other : Clientset → W → Outcome W) (s s2 : Int),
      runEnding env v w = some (.exited s) →
      runEnding { env with Cleanup := other } v w = some (.exited s2) → s = s2) := by
  refine ⟨?_, ?_, ?_, ?_, ?_⟩
  · intro s
    rcases Bool.eq_false_or_eq_true v.cleanup with hc | hc <;>
    rcases Bool.eq_false_or_eq_true v.listImages with hl | hl <;>
    simp only [runEnding, runTrace, start, Run, bind_eq, pure_eq, invoke_bind, invoke0_bind,
      getVars_bind, viperGetString_bind, emit_bind, ok_bind, ite_bind, bind_bind, halt, hc, hl,
      Bool.false_eq_true, if_false, if_true] <;>
    repeat' split
    all_goals simp_all [Res.ending, Res.trace, Res.state, lastExitCode, Call.op]
  · intro hc hl p st hp hs
    constructor
    · intro w9 h9
      unfold runEnding
      rw [Run_normal_eq env v w hc hl p st w9 hp hs h9]
      rfl
    · intro c h9
      unfold runEnding
      rw [Run_normal_Cleanup_exit env v w hc hl p st c hp hs h9]
      rfl
  · intro hc p w4 hp h4
    unfold runEnding
    rw [Run_cleanup_eq env v w hc p w4 hp h4]
    rfl
  · intro hc hl p w4 hp h4
    unfold runEnding
    rw [Run_listImages_eq env v w hc hl p w4 hp h4]
    rfl
  · intro other s s2
    rcases Bool.eq_false_or_eq_true v.cleanup with hc | hc <;>
    rcases Bool.eq_false_or_eq_true v.listImages with hl | hl <;>
    simp only [runEnding, runTrace, start, Run, bind_eq, pure_eq, invoke_bind, invoke0_bind,
      getVars_bind, viperGetString_bind, emit_bind, ok_bind, ite_bind, bind_bind, halt, hc, hl,
      Bool.false_eq_true, if_false, if_true] <;>
    repeat' split
    all_goals simp_all [Res.ending, Res.trace, Res.state, Call.op]

theorem exit_status_is_ExitCode_witness :
    (lastExitCode (runTrace okEnv vars0 0) = some 3 ∧ Event.exiting 3 ∈ runTrace okEnv vars0 0) ∧
    runEnding okEnv vars0 0 = some (.exited 3) ∧
    runEnding fatalCleanupEnv vars0 0 = some (.aborted .Cleanup 7) ∧
    runEnding okEnv cleanupVars 0 = some (.exited 0) :=
  ⟨(exit_status_is_ExitCode okEnv vars0 0).1 3 (by decide),
   ((exit_status_is_ExitCode okEnv vars0 0).2.1 rfl rfl okPreamble okStages
      ⟨rfl, rfl, rfl⟩ ⟨rfl, rfl, rfl, rfl, rfl⟩).1 9 rfl,
   ((exit_status_is_ExitCode fatalCleanupEnv vars0 0).2.1 rfl rfl okPreamble okStages
      ⟨rfl, rfl, rfl⟩ ⟨rfl, rfl, rfl, rfl, rfl⟩).2 7 rfl,
   (exit_status_is_ExitCode okEnv cleanupVars 0).2.2.1 rfl okPreamble 4 ⟨rfl, rfl, rfl⟩ rfl⟩

/-- C4.  `PreRun` ends the process, with status 1, exactly when `conformance`
is set and `focus` is non-empty; `Run` then contributes nothing; otherwise
`PreRun` returns and leaves the whole state as it was. -/
theorem PreRun_rejects_iff {W : Type} (env : Env W) (v : Vars) (w : W) :
    ((start PreRun v w).ending = some (.fatal clashMsg) ↔
      (v.conformance = true ∧ v.focus ≠ "")) ∧
    (v.conformance = true ∧ v.focus ≠ "" →
      (Ending.fatal clashMsg).status = 1 ∧
      (start (PreRun >>= fun _ => Run env) v w).ending = some (.fatal clashMsg) ∧
      (start (PreRun >>= fun _ => Run env) v w).trace = [] ∧
      collabOps (start (rootCmdExecute env) v w).trace = [] ∧
      ((start (rootCmdExecute env) v w).ending = some (.fatal clashMsg) ∨
        ∃ st, (start (rootCmdExecute env) v w).ending = some (.aborted .GetKubeConfig st))) ∧
    (¬ (v.conformance = true ∧ v.focus ≠ "") →
      start PreRun v w = .ok () ⟨v, w, []⟩ ∧
      start (PreRun >>= fun _ => Run env) v w = start (Run env) v w) := by
  refine ⟨?_, ?_, ?_⟩
  · by_cases h : (v.conformance && v.focus != "") = true
    · simp only [start, PreRun, bind_eq, pure_eq, getVars_bind, setVars_bind, ite_app, halt,
        clashMsg, h, if_true, Res.ending]
      simpa using h
    · simp only [start, PreRun, bind_eq, pure_eq, getVars_bind, setVars_bind, ite_app, halt,
        clashMsg, h, if_false, Res.ending]
      simpa using h
  · rintro ⟨h1, h2⟩
    have h : (v.conformance && v.focus != "") = true := by simp [h1, h2]
    refine ⟨rfl, ?_, ?_, ?_, ?_⟩
    · simp only [start, PreRun, bind_eq, pure_eq, getVars_bind, setVars_bind, ite_bind, bind_bind,
        halt_bind, clashMsg, h, if_true, Res.ending]
    · simp only [start, PreRun, bind_eq, pure_eq, getVars_bind, setVars_bind, ite_bind, bind_bind,
        halt_bind, clashMsg, h, if_true, Res.trace, Res.state]
    · simp only [start, rootCmdExecute, initConfig, bind_eq]
      repeat' first
        | split
        | simp only [PreRun, bind_eq, pure_eq, getVars_bind, setVars_bind, ite_bind, ite_app,
            bind_bind, halt_bind, invoke_bind, viperDo_bind, emit_bind, ok_bind, h, if_true]
      all_goals simp_all [Res.trace, Res.state, collabOps, calls, Call.op, Op.isCollaborator]
    · simp only [start, rootCmdExecute, initConfig, bind_eq]
      repeat' first
        | split
        | simp only [PreRun, bind_eq, pure_eq, getVars_bind, setVars_bind, ite_bind, ite_app,
            bind_bind, halt_bind, invoke_bind, viperDo_bind, emit_bind, ok_bind, h, if_true]
      all_goals simp_all [Res.ending, clashMsg, Call.op]
  · intro h
    have h0 : (v.conformance && v.focus != "") = false := by
      cases hb : (v.conformance && v.focus != "")
      · rfl
      · exact absurd (by simpa using hb) h
    constructor
    · simp only [start, PreRun, bind_eq, pure_eq, getVars_bind, ite_app, h0, Bool.false_eq_true,
        if_false]
    · simp only [start, PreRun, bind_eq, pure_eq, getVars_bind, ite_bind, bind_bind, ok_bind, h0,
        Bool.false_eq_true, if_false]

theorem PreRun_rejects_iff_witness :
    (start (PreRun >>= fun _ => Run okEnv) clashVars 0).ending = some (.fatal clashMsg) ∧
    (start (PreRun >>= fun _ => Run okEnv) clashVars 0).trace = [] :=
  ⟨((PreRun_rejects_iff okEnv clashVars 0).2.1 (by decide)).2.1,
   ((PreRun_rejects_iff okEnv clashVars 0).2.1 (by decide)).2.2.1⟩

/-- C5 (as stated) fails: with `cleanup` set, when `service.Init` ends the
process (a kubeconfig that cannot be loaded), `service.Cleanup` is called 0
times. -/
theorem Cleanup_skipped_when_Init_exits :
    cleanupVars.cleanup = true ∧
    runEnding fatalInitEnv cleanupVars 0 = some (.aborted .Init 1) ∧
    collabOps (runTrace fatalInitEnv cleanupVars 0) = [.NewClient, .Init] ∧
    (collabOps (runTrace fatalInitEnv cleanupVars 0)).count .Cleanup = 0 := by
  decide

/-- C5 (amended).  With `cleanup` set, whatever the other flags, `Run` calls
none of the workload operations nor `PrintListImages`, and its whole result
is the same whatever those six operations are; it calls `service.Cleanup` at
most once, and exactly once precisely when the shared preamble (`NewClient`,
`Init`, `PrintInfo`) has returned: `Cleanup` is then applied to the
`ClientSet` that `Init` returned and to the world `PrintInfo` left, and the
run ends in the world `Cleanup` left, or with the status `Cleanup` chose. -/
theorem cleanup_mode_only_cleans {W : Type} (env : Env W) (v : Vars) (w : W)
    (hc : v.cleanup = true) :
    (∀ op ∈ collabOps (runTrace env v w),
      op ≠ .ValidateArgs ∧ op ≠ .RunE2E ∧ op ≠ .PrintE2ELogs ∧ op ≠ .FetchFiles ∧
      op ≠ .FetchExitCode ∧ op ≠ .PrintListImages) ∧
    (∀ (va : Clientset → RestConfig → W → Outcome W) (re : Clientset → W → Outcome W)
        (pl : Client → W → Outcome (Client × W))
        (ff : Client → RestConfig → Clientset → String → W → Outcome (Client × W))
        (fe : Client → W → Outcome (Client × W)) (pli : Clientset → W → Outcome W),
      start (Run
          { env with
            ValidateArgs := va, RunE2E := re, PrintE2ELogs := pl, FetchFiles := ff,
            FetchExitCode := fe, PrintListImages := pli }) v w =
        start (Run env) v w) ∧
    (collabOps (runTrace env v w)).count .Cleanup ≤ 1 ∧
    ((collabOps (runTrace env v w)).count .Cleanup = 1 ↔
      ∃ r, Event.ret .PrintInfo r ∈ runTrace env v w) ∧
    (∀ (p : Preamble W), p.ok env w →
      (∀ w4, env.Cleanup p.cs p.w3 = .ret w4 →
        start (Run env) v w =
          .halt (.exited p.c0.ExitCode)
            ⟨v, w4, p.trace env ++
              [.call (.Cleanup p.cs), .ret .Cleanup .unit, .exiting p.c0.ExitCode]⟩) ∧
      (∀ c, env.Cleanup p.cs p.w3 = .exit c →
        start (Run env) v w =
          .halt (.aborted .Cleanup c) ⟨v, p.w3, p.trace env ++ [.call (.Cleanup p.cs)]⟩)) ∧
    (∀ s, runEnding env v w = some (.exited s) →
      marks (runTrace env v w) =
        [.enter .NewClient, .leave .NewClient, .enter .Init, .leave .Init,
         .enter .PrintInfo, .leave .PrintInfo, .enter .Cleanup, .leave .Cleanup]) := by
  refine ⟨?_, ?_, ?_, ?_, ?_, ?_⟩
  · simp only [runTrace, start, Run, bind_eq, pure_eq, invoke_bind, invoke0_bind,
      getVars_bind, viperGetString_bind, emit_bind, ok_bind, ite_bind, bind_bind, halt, hc,
      if_true]
    repeat' split
    all_goals simp_all [Res.trace, Res.state, collabOps, calls, Call.op, Op.isCollaborator]
  · intro va re pl ff fe pli
    exact Run_cleanup_frame env v w hc va re pl ff fe pli
  · simp only [runTrace, start, Run, bind_eq, pure_eq, invoke_bind, invoke0_bind,
      getVars_bind, viperGetString_bind, emit_bind, ok_bind, ite_bind, bind_bind, halt, hc,
      if_true]
    repeat' split
    all_goals simp_all [Res.trace, Res.state, collabOps, calls, Call.op, Op.isCollaborator]
  · simp only [runTrace, start, Run, bind_eq, pure_eq, invoke_bind, invoke0_bind,
      getVars_bind, viperGetString_bind, emit_bind, ok_bind, ite_bind, bind_bind, halt, hc,
      if_true]
    repeat' split
    all_goals simp_all [Res.trace, Res.state, collabOps, calls, Call.op, Op.isCollaborator]
  · intro p hp
    exact ⟨fun w4 h4 => Run_cleanup_eq env v w hc p w4 hp h4,
      fun c h4 => Run_cleanup_exit env v w hc p c hp h4⟩
  · simp only [runEnding, runTrace, start, Run, bind_eq, pure_eq, invoke_bind, invoke0_bind,
      getVars_bind, viperGetString_bind, emit_bind, ok_bind, ite_bind, bind_bind, halt, hc,
      if_true]
    repeat' split
    all_goals simp_all [Res.ending, Res.trace, Res.state, marks, Call.op]

theorem cleanup_mode_only_cleans_witness :
    cleanupVars.listImages = true ∧
    start (Run okEnv) cleanupVars 0 =
      .halt (.exited 0)
        ⟨cleanupVars, 4, okPreamble.trace okEnv ++
          [.call (.Cleanup ⟨9⟩), .ret .Cleanup .unit, .exiting 0]⟩ ∧
    (collabOps (runTrace okEnv cleanupVars 0)).count .Cleanup = 1 ∧
    marks (runTrace okEnv cleanupVars 0) =
        [.enter .NewClient, .leave .NewClient, .enter .Init, .leave .Init,
         .enter .PrintInfo, .leave .PrintInfo, .enter .Cleanup, .leave .Cleanup] :=
  ⟨rfl,
   ((cleanup_mode_only_cleans okEnv cleanupVars 0 rfl).2.2.2.2.1 okPreamble
      ⟨rfl, rfl, rfl⟩).1 4 rfl,
   (cleanup_mode_only_cleans okEnv cleanupVars 0 rfl).2.2.2.1.mpr ⟨.unit, by decide⟩,
   (cleanup_mode_only_cleans okEnv cleanupVars 0 rfl).2.2.2.2.2 0 (by decide)⟩

/-- The registry that `init` builds, written out. -/
theorem registry_eq (workingDir configHome : String) :
    registry workingDir configHome =
      ⟨[⟨.PersistentFlags, .cfgFile, "config", "",
          "Default config file (" ++ configHome ++ "/hydrophone/hydrophone.yaml)"⟩,
        ⟨.PersistentFlags, .kubeconfig, "kubeconfig", "", "path to the kubeconfig file."⟩,
        ⟨.PersistentFlags, .parallel, "parallel", "1",
          "number of parallel threads in test framework."⟩,
        ⟨.PersistentFlags, .verbosity, "verbosity", "4", "verbosity of test framework."⟩,
        ⟨.PersistentFlags, .outputDir, "output-dir", workingDir, "directory for logs."⟩,
        ⟨.Flags, .cleanup, "cleanup", "false", "cleanup resources (pods, namespaces etc)."⟩,
        ⟨.Flags, .listImages, "list-images", "false",
          "list all images that will be used during conformance tests."⟩,
        ⟨.Flags, .conformance, "conformance", "false", "run conformance tests."⟩,
        ⟨.Flags, .focus, "focus", "",
          "focus runs a specific e2e test. e.g. - sig-auth. allows regular expressions."⟩,
        ⟨.Flags, .skip, "skip", "", "skip specific tests. allows regular expressions."⟩,
        ⟨.Flags, .conformanceImage, "conformance-image", "",
          "specify a conformance container image of your choice."⟩,
        ⟨.Flags, .busyboxImage, "busybox-image", "",
          "specify an alternate busybox container image."⟩,
        ⟨.Flags, .dryRun, "dry-run", "false", "run in dry run mode."⟩,
        ⟨.Flags, .testRepoList, "test-repo-list", "",
          "yaml file to override registries for test images."⟩,
        ⟨.Flags, .testRepo, "test-repo", "", "skip specific tests. allows regular expressions."⟩],
       [("test-repo", ⟨.Flags, .testRepo, "test-repo", "",
          "skip specific tests. allows regular expressions."⟩),
        ("test-repo-list", ⟨.Flags, .testRepoList, "test-repo-list", "",
          "yaml file to override registries for test images."⟩),
        ("dry-run", ⟨.Flags, .dryRun, "dry-run", "false", "run in dry run mode."⟩),
        ("busybox-image", ⟨.Flags, .busyboxImage, "busybox-image", "",
          "specify an alternate busybox container image."⟩),
        ("conformance-image", ⟨.Flags, .conformanceImage, "conformance-image", "",
          "specify a conformance container image of your choice."⟩),
        ("skip", ⟨.Flags, .skip, "skip", "", "skip specific tests. allows regular expressions."⟩),
        ("output-dir", ⟨.PersistentFlags, .outputDir, "output-dir", workingDir,
          "directory for logs."⟩),
        ("verbosity", ⟨.PersistentFlags, .verbosity, "verbosity", "4",
          "verbosity of test framework."⟩),
        ("parallel", ⟨.PersistentFlags, .parallel, "parallel", "1",
          "number of parallel threads in test framework."⟩)]⟩ := by
  have h1 : toString (1 : Int) = "1" := rfl
  have h4 : toString (4 : Int) = "4" := rfl
  have hf : toString false = "false" := rfl
  simp [registry, init, initStmts, Registry.step, Registry.lookup, List.find?, h1, h4, hf]

/-- The flag that `init` binds to the viper key `dry-run`. -/
theorem registry_bound_dryRun (workingDir configHome : String) :
    (registry workingDir configHome).bound.lookup "dry-run" =
      some ⟨.Flags, .dryRun, "dry-run", "false", "run in dry run mode."⟩ := by
  rw [registry_eq]
  simp only [List.lookup]
  rfl

/-- A returning call of a quiet operation leaves the dry-run reading and the
mutation log as they were. -/
theorem sameAs_keeps {w2 w w0 : Cluster} (h : w2.sameAs w)
    (hv : w.viper.GetBool "dry-run" = true) (hm : w.mutations = w0.mutations) :
    w2.viper.GetBool "dry-run" = true ∧ w2.mutations = w0.mutations := by
  obtain ⟨h1, h2, -⟩ := h
  rw [h1, h2]
  exact ⟨hv, hm⟩

/-- C7.  `init` binds the viper key `dry-run` to the flag `--dry-run` of the
variable `dryRun`; `Run` itself never consults that variable and hands
`RunE2E` nothing but the `ClientSet` that `Init` returned; once the flag is
given the key reads true; bootstrapping as the specification describes it
then issues no mutating call and returns a handle flagged as simulated; and
in a normal run whose other operations leave the cluster alone, no mutating
call has been issued when the run ends, and the handle is the simulated one
when the run reaches `os.Exit`. -/
theorem dry_run_bootstrap_is_simulated (workingDir configHome : String) :
    ((registry workingDir configHome).flagFor "dry-run" = some "dry-run" ∧
      ((registry workingDir configHome).lookup .Flags "dry-run").map (fun f => f.var)
        = some .dryRun) ∧
    (∀ {W : Type} (env : Env W) (v : Vars) (w : W) (b : Bool),
      runTrace env { v with dryRun := b } w = runTrace env v w ∧
      runEnding env { v with dryRun := b } w = runEnding env v w) ∧
    (∀ {W : Type} (env : Env W) (v : Vars) (w : W) (cs : Clientset),
      Event.call (.RunE2E cs) ∈ runTrace env v w →
        ∃ cfg, Event.ret .Init (.conn cfg cs) ∈ runTrace env v w) ∧
    (∀ (vp : Viper), vp.registry = registry workingDir configHome →
      vp.override.lookup "dry-run" = none → "dry-run" ∈ vp.parsed.changed →
      vp.parsed.vars.dryRun = true → vp.GetBool "dry-run" = true) ∧
    (∀ (w : Cluster) (cs : Clientset), w.viper.GetBool "dry-run" = true →
      ∃ w2, specRunE2E cs w = .ret w2 ∧ w2.mutations = w.mutations ∧
        w2.handle = some ⟨true⟩) ∧
    (∀ (env : Env Cluster) (v : Vars) (w : Cluster), env.RunE2E = specRunE2E → env.Quiet →
      v.cleanup = false → v.listImages = false → w.viper.GetBool "dry-run" = true →
      (start (Run env) v w).state.world.mutations = w.mutations ∧
      (∀ s, runEnding env v w = some (.exited s) →
        (start (Run env) v w).state.world.handle = some ⟨true⟩)) := by
  refine ⟨⟨?_, ?_⟩, ?_, ?_, ?_, ?_, ?_⟩
  · unfold Registry.flagFor
    rw [registry_bound_dryRun]
    rfl
  · rw [registry_eq]
    simp only [Registry.lookup, List.find?]
    rfl
  · intro W env v w b
    constructor <;>
    · rcases Bool.eq_false_or_eq_true v.cleanup with hc | hc <;>
      rcases Bool.eq_false_or_eq_true v.listImages with hl | hl <;>
      simp only [runEnding, runTrace, start, Run, bind_eq, pure_eq, invoke_bind, invoke0_bind,
        getVars_bind, viperGetString_bind, emit_bind, ok_bind, ite_bind, bind_bind, halt, hc, hl,
        Bool.false_eq_true, if_false, if_true] <;>
      repeat' split
      all_goals simp_all [Res.ending, Res.trace, Res.state]
  · intro W env v w cs
    rcases Bool.eq_false_or_eq_true v.cleanup with hc | hc <;>
    rcases Bool.eq_false_or_eq_true v.listImages with hl | hl <;>
    simp only [runEnding, runTrace, start, Run, bind_eq, pure_eq, invoke_bind, invoke0_bind,
      getVars_bind, viperGetString_bind, emit_bind, ok_bind, ite_bind, bind_bind, halt, hc, hl,
      Bool.false_eq_true, if_false, if_true] <;>
    repeat' split
    all_goals simp_all [Res.ending, Res.trace, Res.state, Call.op]
  · intro vp hr ho hch hv
    have hb : vp.registry.bound.lookup "dry-run" =
        some ⟨.Flags, .dryRun, "dry-run", "false", "run in dry run mode."⟩ := by
      rw [hr, registry_bound_dryRun]
    simp only [Viper.GetBool, Viper.findValue, ho, hb, hch, if_true, Vars.value, hv]
    rfl
  · intro w cs h
    refine ⟨{ w with handle := some ⟨true⟩ }, ?_, rfl, rfl⟩
    simp only [specRunE2E, h, if_true]
  · intro env v w hE ⟨q1, q2, q3, q4, q5, q6, q7, q8⟩ hc hl hd
    simp only [runEnding, start, Run, bind_eq, pure_eq, invoke_bind, invoke0_bind,
      getVars_bind, viperGetString_bind, emit_bind, ok_bind, ite_bind, bind_bind, halt, hc, hl,
      Bool.false_eq_true, if_false, hE]
    cases e1 : env.NewClient w with
    | exit st => simp [Res.state, Res.ending]
    | ret p1 =>
      obtain ⟨c0, w1⟩ := p1
      obtain ⟨d1, m1⟩ := sameAs_keeps (q1 _ _ _ e1) hd rfl
      simp only []
      cases e2 : env.Init (env.GetString "kubeconfig" w1) w1 with
      | exit st => simp [Res.state, Res.ending, m1]
      | ret p2 =>
        obtain ⟨⟨cfg, cs⟩, w2⟩ := p2
        obtain ⟨d2, m2⟩ := sameAs_keeps (q2 _ _ _ _ e2) d1 m1
        simp only []
        cases e3 : env.PrintInfo cs cfg w2 with
        | exit st => simp [Res.state, Res.ending, m2]
        | ret w3 =>
          obtain ⟨d3, m3⟩ := sameAs_keeps (q3 _ _ _ _ e3) d2 m2
          simp only []
          cases e4 : env.ValidateArgs cs cfg w3 with
          | exit st => simp [Res.state, Res.ending, m3]
          | ret w4 =>
            obtain ⟨d4, m4⟩ := sameAs_keeps (q4 _ _ _ _ e4) d3 m3
            have e5 : specRunE2E cs w4 = .ret { w4 with handle := some ⟨true⟩ } := by
              simp only [specRunE2E, d4, if_true]
            simp only [e5]
            cases e6 : env.PrintE2ELogs ⟨cs, c0.ExitCode⟩ { w4 with handle := some ⟨true⟩ } with
            | exit st => simp [Res.state, Res.ending, m4]
            | ret p6 =>
              obtain ⟨c1, w6⟩ := p6
              obtain ⟨-, m6, a6⟩ := q5 _ _ _ _ e6
              simp only []
              cases e7 : env.FetchFiles c1 cfg cs (env.GetString "output-dir" w6) w6 with
              | exit st => simp [Res.state, Res.ending, m6, m4]
              | ret p7 =>
                obtain ⟨c2, w7⟩ := p7
                obtain ⟨-, m7, a7⟩ := q6 _ _ _ _ _ _ _ e7
                simp only []
                cases e8 : env.FetchExitCode c2 w7 with
                | exit st => simp [Res.state, Res.ending, m7, m6, m4]
                | ret p8 =>
                  obtain ⟨c3, w8⟩ := p8
                  obtain ⟨-, m8, a8⟩ := q7 _ _ _ _ e8
                  simp only []
                  cases e9 : env.Cleanup c3.ClientSet w8 with
                  | exit st => simp [Res.state, Res.ending, m8, m7, m6, m4]
                  | ret w9 =>
                    obtain ⟨-, m9, a9⟩ := q8 _ _ _ e9
                    simp [Res.state, Res.ending, m9, m8, m7, m6, m4, a9, a8, a7, a6]

theorem dry_run_bootstrap_is_simulated_witness :
    (viperAfterParse dryRunLine []).GetBool "dry-run" = true ∧
    (∃ w2, specRunE2E ⟨9⟩ (freshCluster (viperAfterParse dryRunLine [])) = .ret w2 ∧
      w2.mutations = [] ∧ w2.handle = some ⟨true⟩) ∧
    (start (Run clusterEnv) dryVars
        (freshCluster (viperAfterParse dryRunLine []))).state.world.mutations = [] ∧
    (start (Run clusterEnv) dryVars
        (freshCluster (viperAfterParse dryRunLine []))).state.world.handle = some ⟨true⟩ :=
  have hq : clusterEnv.Quiet :=
    ⟨fun _ _ _ h => by cases h; exact ⟨rfl, rfl, rfl⟩,
     fun _ _ _ _ h => by cases h; exact ⟨rfl, rfl, rfl⟩,
     fun _ _ _ _ h => by cases h; exact ⟨rfl, rfl, rfl⟩,
     fun _ _ _ _ h => by cases h; exact ⟨rfl, rfl, rfl⟩,
     fun _ _ _ _ h => by cases h; exact ⟨rfl, rfl, rfl⟩,
     fun _ _ _ _ _ _ _ h => by cases h; exact ⟨rfl, rfl, rfl⟩,
     fun _ _ _ _ h => by cases h; exact ⟨rfl, rfl, rfl⟩,
     fun _ _ _ h => by cases h; exact ⟨rfl, rfl, rfl⟩⟩
  ⟨(dry_run_bootstrap_is_simulated "/work" "/home/u/.config").2.2.2.1
      (viperAfterParse dryRunLine []) rfl rfl (by decide) rfl,
   (dry_run_bootstrap_is_simulated "/work" "/home/u/.config").2.2.2.2.1
      (freshCluster (viperAfterParse dryRunLine [])) ⟨9⟩ (by decide),
   ((dry_run_bootstrap_is_simulated "/work" "/home/u/.config").2.2.2.2.2
      clusterEnv dryVars (freshCluster (viperAfterParse dryRunLine [])) rfl hq rfl rfl
      (by decide)).1,
   ((dry_run_bootstrap_is_simulated "/work" "/home/u/.config").2.2.2.2.2
      clusterEnv dryVars (freshCluster (viperAfterParse dryRunLine [])) rfl hq rfl rfl
      (by decide)).2 0 (by decide)⟩

/-- C8: what `init` does.  The flag `--focus` is registered for the variable
`focus`, but no viper key is bound to it, unlike every other listed field; so
after `--focus sig-auth --skip Slow` the key `focus` has no value while the key
`skip` reads `Slow`. -/
theorem focus_flag_not_bound (workingDir configHome : String) :
    ((registry workingDir configHome).lookup .Flags "focus").map (fun f => f.var)
      = some .focus ∧
    ["conformance-image", "busybox-image", "focus", "skip", "parallel", "verbosity",
      "output-dir", "dry-run", "test-repo-list", "test-repo"].map
        (registry workingDir configHome).flagFor =
      [some "conformance-image", some "busybox-image", none, some "skip", some "parallel",
        some "verbosity", some "output-dir", some "dry-run", some "test-repo-list",
        some "test-repo"] ∧
    (Viper.mk (registry workingDir configHome) focusSkipLine [] []).find "focus" = none ∧
    (Viper.mk (registry workingDir configHome) focusSkipLine [] []).find "skip" = some "Slow" := by
  refine ⟨?_, ?_, ?_, ?_⟩
  · rw [registry_eq]
    simp only [Registry.lookup, List.find?]
    rfl
  · simp only [List.map, Registry.flagFor]
    rw [registry_eq]
    simp only [List.lookup]
    rfl
  · simp only [Viper.find, Viper.findValue]
    rw [registry_eq]
    simp only [List.lookup]
    rfl
  · simp only [Viper.find, Viper.findValue]
    rw [registry_eq]
    simp only [List.lookup]
    rfl

/-- C9: what `initConfig` does.  `viper.ReadInConfig` is called exactly when
`cfgFile` is empty; with `--config` given the file is named to viper and never
read. -/
theorem initConfig_reads_iff_no_cfgFile {W : Type} (env : Env W) (v : Vars) (w : W) :
    (Call.ReadInConfig ∈ calls (start (initConfig env) v w).trace ↔ v.cfgFile = "") ∧
    (Call.SetConfigFile v.cfgFile ∈ calls (start (initConfig env) v w).trace ↔
      v.cfgFile ≠ "") := by
  by_cases h : v.cfgFile = ""
  · have hb : (v.cfgFile != "") = false := by simp [h]
    simp only [start, initConfig, bind_eq, pure_eq, getVars_bind, setVars_bind, ite_bind,
      ite_app, bind_bind, halt_bind, invoke_bind, viperDo_bind, emit_bind, ok_bind, hb,
      if_false, Bool.false_eq_true]
    generalize env.ReadInConfig _ = rr
    rcases rr with ⟨_ | _ | msg, w2⟩
    · simp only [bind_eq, pure_eq, getVars_bind, setVars_bind, bind_bind, invoke_bind,
        viperDo_bind, emit_bind, ok_bind]
      split <;> simp [Res.trace, Res.state, calls, viperDo, h]
    · simp only [bind_eq, pure_eq, getVars_bind, setVars_bind, bind_bind, invoke_bind,
        viperDo_bind, emit_bind, ok_bind]
      generalize env.SafeWriteConfig _ = ww
      rcases ww with ⟨_ | e, w3⟩
      · simp only [bind_eq, pure_eq, getVars_bind, setVars_bind, bind_bind, invoke_bind,
          viperDo_bind, emit_bind, ok_bind]
        split <;> simp [Res.trace, Res.state, calls, viperDo, h]
      · simp only [bind_eq, pure_eq, getVars_bind, setVars_bind, bind_bind, invoke_bind,
          viperDo_bind, emit_bind, ok_bind]
        split <;> simp [Res.trace, Res.state, calls, viperDo, h]
    · simp only [bind_eq, pure_eq, getVars_bind, setVars_bind, bind_bind, invoke_bind,
        viperDo_bind, emit_bind, ok_bind]
      split <;> simp [Res.trace, Res.state, calls, viperDo, h]
  · have hb : (v.cfgFile != "") = true := by simp [h]
    simp only [start, initConfig, bind_eq, pure_eq, getVars_bind, setVars_bind, ite_bind,
      ite_app, bind_bind, halt_bind, invoke_bind, viperDo_bind, emit_bind, ok_bind, hb, if_true]
    split <;> simp [Res.trace, Res.state, calls, viperDo, h]

end Hydrophone
